import Mathlib

/-
Shallow embedding of the seupachiba single-page application (src/App.tsx,
src/types.ts, src/constants file) for checking its natural-language
specification.  Pixel coordinates and pointer deltas are modelled as
rationals; TypeScript optional fields become Option; the JavaScript
defaulting idiom `v || d` (which substitutes `d` for both a missing field
and a zero value) is modelled by `jsOr`.
-/

namespace Seupachiba

/-- Category enumeration from src/types.ts. -/
inductive Category
  | DESSERT
  | BEVERAGE
  | OTHER
deriving DecidableEq, Repr

/-- RecipeStep record from src/types.ts. -/
structure RecipeStep where
  id : String
  description : String
  imageUrl : Option String
deriving DecidableEq, Repr

/-- Recipe record from src/types.ts. -/
structure Recipe where
  name : String
  yield : String
  ingredients : String
  steps : List RecipeStep
  mainImage : Option String
deriving DecidableEq, Repr

/-- ImageItem record from src/types.ts: a floating annotated image.
Coordinates and sizes are rationals standing for JS numbers. -/
structure ImageItem where
  id : String
  url : String
  x : ℚ
  y : ℚ
  width : ℚ
  height : ℚ
  isCropped : Bool
  cropX : Option ℚ
  cropY : Option ℚ
  originalWidth : Option ℚ
  originalHeight : Option ℚ
deriving DecidableEq, Repr

/-- Report record from src/types.ts. -/
structure Report where
  id : String
  title : String
  content : String
  date : String
  images : List ImageItem
  isDeleted : Bool
deriving DecidableEq, Repr

/-- DevelopmentLog record from src/types.ts. -/
structure DevelopmentLog where
  id : String
  title : String
  content : String
  date : String
  images : List ImageItem
  isDeleted : Bool
deriving DecidableEq, Repr

/-- Project record from src/types.ts. -/
structure Project where
  id : String
  title : String
  category : Category
  coverImage : Option String
  createdAt : String
  reports : List Report
  logs : List DevelopmentLog
  recipe : Option Recipe
  isDeleted : Bool
deriving DecidableEq, Repr

/-- JS numeric defaulting `v || d`: an absent value and a zero value both
fall back to the default (0 is falsy in JS). -/
def jsOr (o : Option ℚ) (d : ℚ) : ℚ :=
  match o with
  | some v => if v = 0 then d else v
  | none => d

/-- A Partial ImageItem as passed to `updateImage`/`onUpdate` in
src/App.tsx: each field is optionally overridden.  The call sites
(move, resize, crop toggle) never override id or url. -/
structure ImagePatch where
  x : Option ℚ
  y : Option ℚ
  width : Option ℚ
  height : Option ℚ
  isCropped : Option Bool
  cropX : Option ℚ
  cropY : Option ℚ
  originalWidth : Option ℚ
  originalHeight : Option ℚ
deriving DecidableEq, Repr

/-- The spread `\x7b ...img, ...updates \x7d` merging a patch into an image. -/
def applyPatch (img : ImageItem) (p : ImagePatch) : ImageItem :=
  { id := img.id
    url := img.url
    x := p.x.getD img.x
    y := p.y.getD img.y
    width := p.width.getD img.width
    height := p.height.getD img.height
    isCropped := p.isCropped.getD img.isCropped
    cropX := match p.cropX with | some v => some v | none => img.cropX
    cropY := match p.cropY with | some v => some v | none => img.cropY
    originalWidth := match p.originalWidth with | some v => some v | none => img.originalWidth
    originalHeight := match p.originalHeight with | some v => some v | none => img.originalHeight }

/-- `updateImage` from ImageCanvas (src/App.tsx lines 918-921): map the
patch over the single image whose id matches. -/
def updateImage (imgs : List ImageItem) (id : String) (p : ImagePatch) : List ImageItem :=
  imgs.map fun img => if img.id = id then applyPatch img p else img

/-- `confirmDelete` from ImageCanvas (src/App.tsx lines 923-930): with a
truthy pending target, filter that image out; otherwise do nothing. -/
def confirmDelete (imgs : List ImageItem) (target : Option String) : List ImageItem :=
  match target with
  | some tid => if tid = "" then imgs else imgs.filter fun img => img.id != tid
  | none => imgs

/-- The patch issued by the move handler (src/App.tsx line 995). -/
def movePatch (initialX initialY startX startY clientX clientY : ℚ) : ImagePatch :=
  { x := some (initialX + (clientX - startX))
    y := some (initialY + (clientY - startY))
    width := none, height := none, isCropped := none
    cropX := none, cropY := none, originalWidth := none, originalHeight := none }

/-- The patch issued by `onToggleCrop` when the image has never been
cropped (src/App.tsx lines 955-961). -/
def cropInitPatch (img : ImageItem) : ImagePatch :=
  { x := none, y := none, width := none, height := none
    isCropped := some true
    cropX := some 0, cropY := some 0
    originalWidth := some img.width, originalHeight := some img.height }

/-- `onToggleCrop` from ImageCanvas (src/App.tsx lines 948-964): toggling
off clears the cropping id and touches no image; toggling on sets the
cropping id and initializes crop fields only for a never-cropped image. -/
def onToggleCrop (croppingId : Option String) (imgs : List ImageItem) (img : ImageItem) :
    Option String × List ImageItem :=
  if croppingId = some img.id then (none, imgs)
  else (some img.id, if img.isCropped then imgs else updateImage imgs img.id (cropInitPatch img))

/-- A resize handle direction: one of the eight compass directions passed
as the `direction` string to `startResize` in src/App.tsx. -/
inductive Direction
  | n
  | s
  | e
  | w
  | ne
  | nw
  | se
  | sw
deriving DecidableEq, Repr

/-- Whether the direction string contains the character n
(`direction.includes` in the source). -/
def Direction.hasN : Direction → Bool
  | .n | .ne | .nw => true
  | _ => false

/-- Whether the direction string contains the character s. -/
def Direction.hasS : Direction → Bool
  | .s | .se | .sw => true
  | _ => false

/-- Whether the direction string contains the character e. -/
def Direction.hasE : Direction → Bool
  | .e | .ne | .se => true
  | _ => false

/-- Whether the direction string contains the character w. -/
def Direction.hasW : Direction → Bool
  | .w | .nw | .sw => true
  | _ => false

/-- Whether the direction string has length two (`direction.length === 2`
in the source), i.e. names a corner handle. -/
def Direction.isCorner : Direction → Bool
  | .ne | .nw | .se | .sw => true
  | _ => false

/-- The pre-clamp width computed in `handleMove` of `startResize`
(src/App.tsx lines 1036-1041): the e branch assigns, the w branch then
overrides. -/
def rawW (d : Direction) (startW deltaX : ℚ) : ℚ :=
  if d.hasW then startW - deltaX else if d.hasE then startW + deltaX else startW

/-- The pre-clamp height computed in `handleMove` of `startResize`
(src/App.tsx lines 1037-1045). -/
def rawH (d : Direction) (startH deltaY : ℚ) : ℚ :=
  if d.hasN then startH - deltaY else if d.hasS then startH + deltaY else startH

/-- The (newW, newH) pair after the aspect-ratio lock for corner handles
(src/App.tsx lines 1047-1054); the lock is skipped while cropping. -/
def lockedDims (isCropping : Bool) (d : Direction) (startW startH deltaX deltaY : ℚ) : ℚ × ℚ :=
  let w0 := rawW d startW deltaX
  let h0 := rawH d startH deltaY
  if !isCropping && d.isCorner then
    if |deltaX| > |deltaY| then (w0, w0 / (startW / startH))
    else (h0 * (startW / startH), h0)
  else (w0, h0)

/-- The update passed to `onUpdate` by one `handleMove` step of
`startResize` (src/App.tsx lines 1024-1095), as a patch.  The crop branch
shifts the crop offset against the origin delta and leaves the inner image
size untouched; the scale branch rescales inner size and crop offset by
the pre-clamp frame ratios.  Both branches floor the frame at 20. -/
def resizePatch (isCropping : Bool) (d : Direction) (img : ImageItem) (deltaX deltaY : ℚ) :
    ImagePatch :=
  let startW := img.width
  let startH := img.height
  let startImgW := jsOr img.originalWidth img.width
  let startImgH := jsOr img.originalHeight img.height
  let startCropX := jsOr img.cropX 0
  let startCropY := jsOr img.cropY 0
  let dims := lockedDims isCropping d startW startH deltaX deltaY
  let newW := dims.1
  let newH := dims.2
  let newX := if d.hasW then img.x + deltaX else img.x
  let newY := if d.hasN then img.y + deltaY else img.y
  if isCropping then
    { x := some newX, y := some newY
      width := some (max 20 newW), height := some (max 20 newH)
      isCropped := none
      cropX := some (if d.hasW then startCropX - deltaX else startCropX)
      cropY := some (if d.hasN then startCropY - deltaY else startCropY)
      originalWidth := none, originalHeight := none }
  else
    { x := some newX, y := some newY
      width := some (max 20 newW), height := some (max 20 newH)
      isCropped := none
      cropX := some (startCropX * (newW / startW))
      cropY := some (startCropY * (newH / startH))
      originalWidth := some (startImgW * (newW / startW))
      originalHeight := some (startImgH * (newH / startH)) }

/-- The image resulting from one `handleMove` step of `startResize`. -/
def resizeStep (isCropping : Bool) (d : Direction) (img : ImageItem) (deltaX deltaY : ℚ) :
    ImageItem :=
  applyPatch img (resizePatch isCropping d img deltaX deltaY)

/-- The default project set from the constants source file.  Its
`createdAt` fields call `new Date().toISOString()` at module load, so the
timestamp is a parameter here. -/
def INITIAL_PROJECTS (now : String) : List Project :=
  [ { id := "1"
      title := "딸기 듬뿍 생크림 케이크"
      category := Category.DESSERT
      createdAt := now
      isDeleted := false
      coverImage := some "https://picsum.photos/400/300?random=10"
      reports :=
        [ { id := "r1", title := "1차 시장 분석", date := "2023-10-01"
            content := "아이디어스 내 딸기 케이크 판매량 분석 결과...", images := [], isDeleted := false }
        , { id := "r2", title := "2차 타겟층 분석", date := "2023-10-05"
            content := "20-30대 여성 타겟 마케팅 전략 수립 필요.", images := [], isDeleted := false } ]
      logs :=
        [ { id := "l1", title := "첫 번째 시트 테스트", date := "2023-10-10"
            content := "제누와즈 공립법으로 시도했으나 기포 정리가 덜 되어 거친 식감이 나왔다.", images := []
            isDeleted := false } ]
      recipe := some
        { name := "딸기 생크림 케이크"
          yield := "1호 1개"
          ingredients := "달걀 150g, 설탕 110g, 박력분 100g, 버터 30g, 우유 45g"
          steps :=
            [ { id := "s1", description := "볼에 달걀을 풀고 설탕을 넣어 중탕으로 온도를 높인다."
                imageUrl := some "https://picsum.photos/200/200?random=11" }
            , { id := "s2", description := "핸드믹서 고속으로 아이보리색이 날 때까지 휘핑한다."
                imageUrl := some "" } ]
          mainImage := none } }
  , { id := "2"
      title := "제주 말차 라떼 베이스"
      category := Category.BEVERAGE
      createdAt := now
      isDeleted := false
      coverImage := none
      reports := []
      logs := []
      recipe := none } ]

/-- Body shape of a successful GET of the remote blob: either a plain
JSON array of projects or something else ("wrong shape"). -/
inductive JsonBody
  | arr (ps : List Project)
  | nonArray
deriving DecidableEq, Repr

/-- Outcome of the timeout-bounded GET in `initStorage`: HTTP-OK with a
body, a non-OK status, or a thrown network/timeout error. -/
inductive FetchRes
  | ok (body : JsonBody)
  | notOk
  | netError
deriving DecidableEq, Repr

/-- Outcome of the POST creating a new blob: HTTP-OK with an optional
Location header, a non-OK status, or a thrown network/CORS/timeout
error. -/
inductive CreateRes
  | ok (location : Option String)
  | notOk
  | netError
deriving DecidableEq, Repr

/-- The external environment `initStorage` (src/App.tsx lines 67-158)
reads: the syncId query parameter, the localStorage fallback, and the
network outcomes. -/
structure InitEnv where
  urlSyncId : Option String
  localId : Option String
  fetchRes : FetchRes
  createRes : CreateRes
deriving DecidableEq, Repr

/-- The falsy-or-placeholder test on the URL parameter (src/App.tsx line
74): absent, empty (JS falsy), or the literal strings null/undefined. -/
def jsFalsyId (c : Option String) : Bool :=
  match c with
  | some s => s = "" || s = "null" || s = "undefined"
  | none => true

/-- Line 77-79: after the localStorage fallback, the literal strings
null/undefined are rejected. -/
def rejectNullUndef (c : Option String) : Option String :=
  match c with
  | some s => if s = "null" || s = "undefined" then none else some s
  | none => none

/-- The identifier resolution of steps 1-2's guard: URL parameter, else
localStorage, with placeholder strings rejected; an empty string is falsy
at every later use, so it normalizes to none. -/
def resolveId (env : InitEnv) : Option String :=
  match rejectNullUndef (if jsFalsyId env.urlSyncId then env.localId else env.urlSyncId) with
  | some s => if s = "" then none else some s
  | none => none

/-- Extraction of the new blob id from the creation response Location
header (src/App.tsx lines 117-121): the last slash-separated segment, kept
only if truthy (nonempty). -/
def extractId (loc : String) : Option String :=
  let s := (loc.splitOn "/").getLastD ""
  if s = "" then none else some s

/-- Step 2 of `initStorage` (src/App.tsx lines 82-103): with a resolved
identifier, a fetch that is HTTP-OK with an array body keeps the id and
adopts the data; every other outcome discards the id and keeps the
default data. -/
def fetchPhase (now : String) (env : InitEnv) : Option String × List Project :=
  match resolveId env, env.fetchRes with
  | some s, FetchRes.ok (JsonBody.arr ps) => (some s, ps)
  | some _, _ => (none, INITIAL_PROJECTS now)
  | none, _ => (none, INITIAL_PROJECTS now)

/-- The state `initStorage` leaves behind once it finishes. -/
structure InitResult where
  projects : List Project
  syncId : Option String
  isOffline : Bool
  isInitializing : Bool
  storedLocalId : Option String
  urlRewritten : Bool
  createCalled : Bool
deriving DecidableEq, Repr

/-- `initStorage` (src/App.tsx lines 67-158): resolve an id, try to fetch,
create a new blob when no valid id survived, and record the resulting
state.  Offline is set only when the create POST throws or returns non-OK;
an OK creation response without a usable Location header leaves the app
online but without a sync id. -/
def initStorage (now : String) (env : InitEnv) : InitResult :=
  let af := fetchPhase now env
  let createCalled := af.1.isNone
  let ac : Option String × List Project × Bool :=
    if createCalled then
      match env.createRes with
      | CreateRes.ok (some loc) =>
        match extractId loc with
        | some newId => (some newId, INITIAL_PROJECTS now, false)
        | none => (none, af.2, false)
      | CreateRes.ok none => (none, af.2, false)
      | CreateRes.notOk => (none, af.2, true)
      | CreateRes.netError => (none, af.2, true)
    else (af.1, af.2, false)
  { projects := ac.2.1
    syncId := ac.1
    isOffline := ac.2.2
    isInitializing := false
    storedLocalId := match ac.1 with | some s => some s | none => env.localId
    urlRewritten := ac.1.isSome
    createCalled := createCalled }

/-- A fetch outcome that is not HTTP-OK-with-array (timeout, network
failure, non-OK status, or wrong shape). -/
def fetchFailed : FetchRes → Bool
  | FetchRes.ok (JsonBody.arr _) => false
  | _ => true

/-- The early-return guard of the debounced save effect (src/App.tsx line
167): the push is a no-op while initializing, without a sync id, or
offline. -/
def pushIsNoOp (isInit : Bool) (sid : Option String) (off : Bool) : Bool :=
  isInit || sid.isNone || off

/-- The early-return guard of the polling effect (src/App.tsx line 190). -/
def pollIsNoOp (isInit : Bool) (sid : Option String) (off : Bool) : Bool :=
  sid.isNone || isInit || off

/-- The early-return guard of `handleRefresh` (src/App.tsx lines 215-218):
no fetch happens without a sync id or while offline. -/
def refreshIsNoOp (sid : Option String) (off : Bool) : Bool :=
  sid.isNone || off

/-- Inside the refresh early return, the user is alerted only when
offline. -/
def refreshInformsUser (sid : Option String) (off : Bool) : Bool :=
  (sid.isNone || off) && off

/-- Two consecutive mutation events where the second arrives inside the
1-second debounce window opened by the first. -/
def Adjacent (a b : ℚ × List Project) : Prop :=
  a.1 ≤ b.1 ∧ b.1 < a.1 + 1

instance (a b : ℚ × List Project) : Decidable (Adjacent a b) := by
  unfold Adjacent; exact inferInstance

/-- One run of the debounced save effect (src/App.tsx lines 166-186) at a
mutation event `ev = (time, projects)`: the cleanup of the previous run
either lets an already-elapsed timer fire or cancels it, and — when the
line-167 guard passes — a new save of the current projects is scheduled
one second later. -/
def debounceStep (pass : Bool) (acc : List (ℚ × List Project) × Option (ℚ × List Project))
    (ev : ℚ × List Project) : List (ℚ × List Project) × Option (ℚ × List Project) :=
  let fired :=
    match acc.2 with
    | some p => if p.1 ≤ ev.1 then acc.1 ++ [p] else acc.1
    | none => acc.1
  (fired, if pass then some (ev.1 + 1, ev.2) else none)

/-- All PUT pushes issued over a whole sequence of mutation events, the
final pending timer firing undisturbed at the end. -/
def debounceRun (pass : Bool) (evs : List (ℚ × List Project)) : List (ℚ × List Project) :=
  let r := evs.foldl (debounceStep pass) ([], none)
  match r.2 with
  | some p => r.1 ++ [p]
  | none => r.1

/-- `handleDeleteProject` (src/App.tsx lines 295-297): soft delete by id. -/
def handleDeleteProject (id : String) (ps : List Project) : List Project :=
  ps.map fun p => if p.id = id then { p with isDeleted := true } else p

/-- `handleRestoreProject` (src/App.tsx lines 301-303): restore by id. -/
def handleRestoreProject (id : String) (ps : List Project) : List Project :=
  ps.map fun p => if p.id = id then { p with isDeleted := false } else p

/-- C2: for every resize drag, in both scale mode and crop mode, on any
handle direction and for every pointer delta however large or negative,
the updated image always satisfies width >= 20 and height >= 20. -/
theorem c2_min_size_floor (cropping : Bool) (d : Direction) (img : ImageItem) (dx dy : ℚ) :
    20 ≤ (resizeStep cropping d img dx dy).width ∧
    20 ≤ (resizeStep cropping d img dx dy).height := by
  cases cropping <;> simp [resizeStep, resizePatch, applyPatch]

/-- C5: toggling crop mode off touches no image; toggling it on for an
already-cropped image leaves the collection unchanged; toggling it on for
a never-cropped image applies exactly the patch that marks it cropped,
snapshots the frame size as the inner size, and zeroes the crop offset. -/
theorem c5_toggle_crop (cid : Option String) (imgs : List ImageItem) (img : ImageItem) :
    (cid = some img.id → onToggleCrop cid imgs img = (none, imgs)) ∧
    (cid ≠ some img.id → img.isCropped = true →
      onToggleCrop cid imgs img = (some img.id, imgs)) ∧
    (cid ≠ some img.id → img.isCropped = false →
      onToggleCrop cid imgs img = (some img.id, updateImage imgs img.id (cropInitPatch img)) ∧
      applyPatch img (cropInitPatch img) =
        { img with
            isCropped := true
            cropX := some 0
            cropY := some 0
            originalWidth := some img.width
            originalHeight := some img.height }) := by
  refine ⟨fun h => by simp [onToggleCrop, h], fun h hc => by simp [onToggleCrop, h, hc],
    fun h hc => ⟨by simp [onToggleCrop, h, hc], ?_⟩⟩
  cases img
  simp [applyPatch, cropInitPatch]

/-- Defaulting a present field against 0 returns the stored value. -/
lemma jsOr_some_zero (v : ℚ) : jsOr (some v) 0 = v := by
  by_cases h : v = 0 <;> simp [jsOr, h]

/-- A concrete cropped image, used as input for witnesses. -/
def imgCropA : ImageItem :=
  { id := "imgA", url := "urlA", x := 40, y := 30, width := 100, height := 50
    isCropped := true, cropX := some 7, cropY := some 3
    originalWidth := some 160, originalHeight := some 90 }

/-- A concrete never-cropped image, used as input for witnesses. -/
def imgPlainB : ImageItem :=
  { id := "imgB", url := "urlB", x := 0, y := 0, width := 200, height := 100
    isCropped := false, cropX := none, cropY := none
    originalWidth := none, originalHeight := none }

/-- C5 witness: toggling crop mode on for the concrete never-cropped image
applies the crop-initialization patch. -/
theorem c5_toggle_crop_witness :
    onToggleCrop none [imgPlainB] imgPlainB =
      (some imgPlainB.id, updateImage [imgPlainB] imgPlainB.id (cropInitPatch imgPlainB)) :=
  ((c5_toggle_crop none [imgPlainB] imgPlainB).2.2 (by decide) (by decide)).1

/-- C1 (amended): in crop mode, dragging the north or west edge keeps the
rendered inner-image corner (frame.x + cropX, frame.y + cropY) and the
stored inner size unchanged for every pointer delta; the dragged frame
dimension changes by exactly the (origin-moving) delta whenever the
unclamped new dimension and the untouched dimension are at least 20 —
otherwise the 20px floor truncates the change. -/
theorem c1_crop_window_stationary (img : ImageItem) (dx dy : ℚ) (d : Direction)
    (hd : d = Direction.n ∨ d = Direction.w) :
    (resizeStep true d img dx dy).x + jsOr (resizeStep true d img dx dy).cropX 0 =
      img.x + jsOr img.cropX 0 ∧
    (resizeStep true d img dx dy).y + jsOr (resizeStep true d img dx dy).cropY 0 =
      img.y + jsOr img.cropY 0 ∧
    (resizeStep true d img dx dy).originalWidth = img.originalWidth ∧
    (resizeStep true d img dx dy).originalHeight = img.originalHeight ∧
    (d = Direction.w → 20 ≤ img.width - dx → 20 ≤ img.height →
      (resizeStep true d img dx dy).width = img.width - dx ∧
      (resizeStep true d img dx dy).height = img.height) ∧
    (d = Direction.n → 20 ≤ img.height - dy → 20 ≤ img.width →
      (resizeStep true d img dx dy).height = img.height - dy ∧
      (resizeStep true d img dx dy).width = img.width) := by
  rcases hd with h | h <;> subst h <;>
    simp [resizeStep, resizePatch, applyPatch, lockedDims, rawW, rawH,
      Direction.hasW, Direction.hasN, Direction.hasE, Direction.hasS,
      Direction.isCorner, jsOr_some_zero] <;>
    exact fun a b => ⟨a, b⟩

/-- C1 counterexample: in crop mode with a 100-wide frame, a west-edge
drag by delta 95 hits the 20px floor, so the width does not change by the
delta in either sign convention. -/
def imgCexC1 : ImageItem :=
  { id := "c1", url := "u", x := 0, y := 0, width := 100, height := 100
    isCropped := true, cropX := some 0, cropY := some 0
    originalWidth := some 100, originalHeight := some 100 }

/-- C1 counterexample theorem: the width change under a west drag by 95 is
neither -95 nor 95 (it is -80, truncated by the floor). -/
theorem c1_counterexample :
    (resizeStep true Direction.w imgCexC1 95 0).width - imgCexC1.width ≠ -95 ∧
    (resizeStep true Direction.w imgCexC1 95 0).width - imgCexC1.width ≠ 95 := by
  norm_num [resizeStep, resizePatch, applyPatch, lockedDims, rawW, rawH, jsOr,
    Direction.hasW, Direction.hasN, Direction.hasE, Direction.hasS, Direction.isCorner,
    imgCexC1]

/-- C1 witness: a west drag by 10 on the concrete cropped image keeps the
inner corner stationary and shrinks the width by exactly 10. -/
theorem c1_crop_window_stationary_witness :
    (resizeStep true Direction.w imgCropA 10 0).x +
        jsOr (resizeStep true Direction.w imgCropA 10 0).cropX 0 =
      imgCropA.x + jsOr imgCropA.cropX 0 ∧
    (resizeStep true Direction.w imgCropA 10 0).width = imgCropA.width - 10 := by
  have h := c1_crop_window_stationary imgCropA 10 0 Direction.w (Or.inr rfl)
  exact ⟨h.1, (h.2.2.2.2.1 rfl (by norm_num [imgCropA]) (by norm_num [imgCropA])).1⟩

/-- C3 (amended): for a corner-handle resize in scale mode on a frame with
positive starting dimensions, whenever the aspect-locked new dimensions
are not truncated by the 20px floor, the resulting width divided by the
resulting height equals the starting width-to-height ratio (the height
being derived from the width, or vice versa, by whichever axis moved
more). -/
theorem c3_corner_aspect (d : Direction) (img : ImageItem) (dx dy : ℚ)
    (hcorner : d.isCorner = true)
    (hw0 : 0 < img.width) (hh0 : 0 < img.height)
    (hw : 20 ≤ (lockedDims false d img.width img.height dx dy).1)
    (hh : 20 ≤ (lockedDims false d img.width img.height dx dy).2) :
    (resizeStep false d img dx dy).width / (resizeStep false d img dx dy).height =
      img.width / img.height := by
  have hwid : (resizeStep false d img dx dy).width =
      (lockedDims false d img.width img.height dx dy).1 := by
    simp [resizeStep, resizePatch, applyPatch, max_eq_right hw]
  have hhei : (resizeStep false d img dx dy).height =
      (lockedDims false d img.width img.height dx dy).2 := by
    simp [resizeStep, resizePatch, applyPatch, max_eq_right hh]
  rw [hwid, hhei]
  rcases lt_or_ge (|dy|) (|dx|) with hc | hc
  · have h1 : (lockedDims false d img.width img.height dx dy).1 = rawW d img.width dx := by
      simp [lockedDims, hcorner, hc]
    have h2 : (lockedDims false d img.width img.height dx dy).2 =
        rawW d img.width dx / (img.width / img.height) := by
      simp [lockedDims, hcorner, hc]
    have hne : rawW d img.width dx ≠ 0 := by
      rw [h1] at hw
      exact (by linarith : (0:ℚ) < rawW d img.width dx).ne'
    rw [h1, h2, div_div_eq_mul_div, mul_comm, mul_div_assoc, div_self hne, mul_one]
  · have hnlt : ¬ (|dx| > |dy|) := not_lt.mpr hc
    have h1 : (lockedDims false d img.width img.height dx dy).1 =
        rawH d img.height dy * (img.width / img.height) := by
      simp [lockedDims, hcorner, hnlt]
    have h2 : (lockedDims false d img.width img.height dx dy).2 = rawH d img.height dy := by
      simp [lockedDims, hcorner, hnlt]
    have hne : rawH d img.height dy ≠ 0 := by
      rw [h2] at hh
      exact (by linarith : (0:ℚ) < rawH d img.height dy).ne'
    rw [h1, h2, mul_comm, mul_div_assoc, div_self hne, mul_one]

/-- C3 counterexample: a 200 by 100 frame dragged at the south-east corner
by delta (-190, 0) hits the 20px floor on both axes and ends square, so
the resulting ratio 1 differs from the starting ratio 2. -/
theorem c3_counterexample :
    (resizeStep false Direction.se imgPlainB (-190) 0).width /
        (resizeStep false Direction.se imgPlainB (-190) 0).height ≠
      imgPlainB.width / imgPlainB.height := by
  norm_num [resizeStep, resizePatch, applyPatch, lockedDims, rawW, rawH, jsOr,
    Direction.hasW, Direction.hasN, Direction.hasE, Direction.hasS, Direction.isCorner,
    imgPlainB]

/-- C3 witness: a south-east corner drag by (100, 0) on the concrete 200
by 100 frame keeps the 2:1 ratio. -/
theorem c3_corner_aspect_witness :
    (resizeStep false Direction.se imgPlainB 100 0).width /
        (resizeStep false Direction.se imgPlainB 100 0).height =
      imgPlainB.width / imgPlainB.height :=
  c3_corner_aspect Direction.se imgPlainB 100 0 rfl
    (by norm_num [imgPlainB]) (by norm_num [imgPlainB])
    (by norm_num [lockedDims, rawW, rawH, Direction.hasW, Direction.hasN, Direction.hasE,
      Direction.hasS, Direction.isCorner, imgPlainB])
    (by norm_num [lockedDims, rawW, rawH, Direction.hasW, Direction.hasN, Direction.hasE,
      Direction.hasS, Direction.isCorner, imgPlainB])

/-- C4 (amended): for a scale-mode resize on a frame with positive
starting dimensions, whenever the new dimensions are not truncated by the
20px floor, the stored inner size and crop offset are the starting
(JS-defaulted) values multiplied by the ratio of the new frame dimension
to the starting frame dimension. -/
theorem c4_resize_zoom (d : Direction) (img : ImageItem) (dx dy : ℚ)
    (hw0 : 0 < img.width) (hh0 : 0 < img.height)
    (hw : 20 ≤ (lockedDims false d img.width img.height dx dy).1)
    (hh : 20 ≤ (lockedDims false d img.width img.height dx dy).2) :
    (resizeStep false d img dx dy).originalWidth =
      some (jsOr img.originalWidth img.width *
        ((resizeStep false d img dx dy).width / img.width)) ∧
    (resizeStep false d img dx dy).originalHeight =
      some (jsOr img.originalHeight img.height *
        ((resizeStep false d img dx dy).height / img.height)) ∧
    (resizeStep false d img dx dy).cropX =
      some (jsOr img.cropX 0 * ((resizeStep false d img dx dy).width / img.width)) ∧
    (resizeStep false d img dx dy).cropY =
      some (jsOr img.cropY 0 * ((resizeStep false d img dx dy).height / img.height)) := by
  refine ⟨?_, ?_, ?_, ?_⟩ <;>
    simp [resizeStep, resizePatch, applyPatch, max_eq_right hw, max_eq_right hh]

/-- C4 counterexample input: a 100 by 100 cropped frame whose inner image
also measures 100, with a nonzero crop offset. -/
def imgCexC4 : ImageItem :=
  { id := "c4", url := "u", x := 0, y := 0, width := 100, height := 100
    isCropped := true, cropX := some 10, cropY := some 0
    originalWidth := some 100, originalHeight := some 100 }

/-- C4 counterexample theorem: an east drag by -90 floors the stored width
at 20 while the inner size is scaled by the unclamped ratio 10/100, so the
stored inner width (10) is not the starting value times the stored frame
ratio (which would be 20). -/
theorem c4_counterexample :
    (resizeStep false Direction.e imgCexC4 (-90) 0).originalWidth ≠
      some (jsOr imgCexC4.originalWidth imgCexC4.width *
        ((resizeStep false Direction.e imgCexC4 (-90) 0).width / imgCexC4.width)) := by
  norm_num [resizeStep, resizePatch, applyPatch, lockedDims, rawW, rawH, jsOr,
    Direction.hasW, Direction.hasN, Direction.hasE, Direction.hasS, Direction.isCorner,
    imgCexC4]

/-- C4 witness: an east drag by 50 on the concrete cropped image scales
inner size and crop offset by the frame ratios. -/
theorem c4_resize_zoom_witness :
    (resizeStep false Direction.e imgCropA 50 0).originalWidth =
      some (jsOr imgCropA.originalWidth imgCropA.width *
        ((resizeStep false Direction.e imgCropA 50 0).width / imgCropA.width)) ∧
    (resizeStep false Direction.e imgCropA 50 0).originalHeight =
      some (jsOr imgCropA.originalHeight imgCropA.height *
        ((resizeStep false Direction.e imgCropA 50 0).height / imgCropA.height)) ∧
    (resizeStep false Direction.e imgCropA 50 0).cropX =
      some (jsOr imgCropA.cropX 0 * ((resizeStep false Direction.e imgCropA 50 0).width / imgCropA.width)) ∧
    (resizeStep false Direction.e imgCropA 50 0).cropY =
      some (jsOr imgCropA.cropY 0 * ((resizeStep false Direction.e imgCropA 50 0).height / imgCropA.height)) :=
  c4_resize_zoom Direction.e imgCropA 50 0
    (by norm_num [imgCropA]) (by norm_num [imgCropA])
    (by norm_num [lockedDims, rawW, rawH, Direction.hasW, Direction.hasN, Direction.hasE,
      Direction.hasS, Direction.isCorner, imgCropA])
    (by norm_num [lockedDims, rawW, rawH, Direction.hasW, Direction.hasN, Direction.hasE,
      Direction.hasS, Direction.isCorner, imgCropA])

/-- C9: soft-deleting a project identifier and then restoring it returns
the whole collection to its exact original state — every field of the
targeted project and every other project — provided every project carrying
that identifier started with isDeleted = false. -/
theorem c9_soft_delete_restore (ps : List Project) (id : String)
    (h : ∀ p ∈ ps, p.id = id → p.isDeleted = false) :
    handleRestoreProject id (handleDeleteProject id ps) = ps := by
  induction ps with
  | nil => rfl
  | cons p rest ih =>
    have hrest : ∀ q ∈ rest, q.id = id → q.isDeleted = false :=
      fun q hq => h q (List.mem_cons_of_mem p hq)
    have htail := ih hrest
    by_cases hp : p.id = id
    · have hflag : p.isDeleted = false := h p (List.mem_cons_self p rest) hp
      cases p
      simp_all [handleDeleteProject, handleRestoreProject]
    · cases p
      simp_all [handleDeleteProject, handleRestoreProject]

/-- A concrete live project used in witnesses. -/
def projLiveA : Project :=
  { id := "pa", title := "A", category := Category.DESSERT, coverImage := none
    createdAt := "t0", reports := [], logs := [], recipe := none, isDeleted := false }

/-- A concrete already-trashed project with a different identifier. -/
def projTrashB : Project :=
  { id := "pb", title := "B", category := Category.OTHER, coverImage := none
    createdAt := "t1", reports := [], logs := [], recipe := none, isDeleted := true }

/-- C9 witness: the round trip on a concrete two-project store restores it
exactly. -/
theorem c9_soft_delete_restore_witness :
    handleRestoreProject "pa" (handleDeleteProject "pa" [projLiveA, projTrashB]) =
      [projLiveA, projTrashB] :=
  c9_soft_delete_restore [projLiveA, projTrashB] "pa" (by decide)

/-- C10: updating a single image by identifier — the shape every canvas
mutation short of deletion takes (move, resize, crop-resize, crop
toggle) — preserves the length and relative order of the collection and
leaves every image at a position whose id differs from the target entirely
unchanged; the delete path removes nothing without a pending confirmed
target. -/
theorem c10_update_frame (imgs : List ImageItem) (tid : String) (p : ImagePatch) :
    (updateImage imgs tid p).length = imgs.length ∧
    (∀ i (h : i < imgs.length), (imgs.get ⟨i, h⟩).id ≠ tid →
      (updateImage imgs tid p).get ⟨i, by simpa [updateImage] using h⟩ = imgs.get ⟨i, h⟩) ∧
    confirmDelete imgs none = imgs := by
  refine ⟨by simp [updateImage], ?_, rfl⟩
  intro i h hne
  rw [List.get_eq_getElem] at hne
  simp [updateImage, hne]

/-- C10 witness: patching the image with id imgB in a concrete two-image
canvas keeps the length and leaves the first image untouched. -/
theorem c10_update_frame_witness :
    (updateImage [imgCropA, imgPlainB] "imgB" (cropInitPatch imgPlainB)).length = 2 ∧
    (updateImage [imgCropA, imgPlainB] "imgB" (cropInitPatch imgPlainB)).get
        ⟨0, by simp [updateImage]⟩ = imgCropA := by
  have h := c10_update_frame [imgCropA, imgPlainB] "imgB" (cropInitPatch imgPlainB)
  exact ⟨h.1, h.2.1 0 (by simp) (by decide)⟩

/-- When initialization reaches the create step, the fetch phase left no
identifier and the default data. -/
lemma fetchPhase_of_createCalled (now : String) (env : InitEnv)
    (h : (initStorage now env).createCalled = true) :
    fetchPhase now env = (none, INITIAL_PROJECTS now) := by
  have h1 : (fetchPhase now env).1.isNone = true := by simpa [initStorage] using h
  rcases hr : resolveId env with _ | s
  · simp [fetchPhase, hr]
  · rcases hf : env.fetchRes with b | _ | _
    · cases b with
      | arr ps => simp [fetchPhase, hr, hf] at h1
      | nonArray => simp [fetchPhase, hr, hf]
    · simp [fetchPhase, hr, hf]
    · simp [fetchPhase, hr, hf]

/-- C6 (amended): when the create POST is attempted and throws or returns
a non-OK status, initialization still completes (isInitializing = false)
with the default project set, the session is marked offline, and the push,
poll and refresh guards all make those actions no-ops, refresh informing
the user; when the create response is OK but carries no Location header,
initialization also completes with the default project set and no sync
identifier — so push, poll and refresh are still no-ops — but the offline
flag is not set and refresh does not inform the user. -/
theorem c6_offline_degradation (now : String) (env : InitEnv)
    (hc : (initStorage now env).createCalled = true) :
    ((env.createRes = CreateRes.netError ∨ env.createRes = CreateRes.notOk) →
      (initStorage now env).isInitializing = false ∧
      (initStorage now env).projects = INITIAL_PROJECTS now ∧
      (initStorage now env).isOffline = true ∧
      (initStorage now env).syncId = none ∧
      pushIsNoOp (initStorage now env).isInitializing (initStorage now env).syncId
        (initStorage now env).isOffline = true ∧
      pollIsNoOp (initStorage now env).isInitializing (initStorage now env).syncId
        (initStorage now env).isOffline = true ∧
      refreshIsNoOp (initStorage now env).syncId (initStorage now env).isOffline = true ∧
      refreshInformsUser (initStorage now env).syncId (initStorage now env).isOffline = true) ∧
    (env.createRes = CreateRes.ok none →
      (initStorage now env).isInitializing = false ∧
      (initStorage now env).projects = INITIAL_PROJECTS now ∧
      (initStorage now env).isOffline = false ∧
      (initStorage now env).syncId = none ∧
      pushIsNoOp (initStorage now env).isInitializing (initStorage now env).syncId
        (initStorage now env).isOffline = true ∧
      pollIsNoOp (initStorage now env).isInitializing (initStorage now env).syncId
        (initStorage now env).isOffline = true ∧
      refreshIsNoOp (initStorage now env).syncId (initStorage now env).isOffline = true ∧
      refreshInformsUser (initStorage now env).syncId (initStorage now env).isOffline = false) := by
  have hfp := fetchPhase_of_createCalled now env hc
  constructor
  · rintro (hcr | hcr) <;>
      simp [initStorage, hfp, hcr, pushIsNoOp, pollIsNoOp, refreshIsNoOp, refreshInformsUser]
  · intro hcr
    simp [initStorage, hfp, hcr, pushIsNoOp, pollIsNoOp, refreshIsNoOp, refreshInformsUser]

/-- C6 counterexample input: both identifier sources empty, create returns
HTTP-OK without a Location header. -/
def envCexC6 : InitEnv :=
  { urlSyncId := none, localId := none, fetchRes := FetchRes.netError
    createRes := CreateRes.ok none }

/-- C6 counterexample theorem: the create attempt fails for lack of
location metadata, yet the session is not marked offline. -/
theorem c6_counterexample :
    (initStorage "t0" envCexC6).createCalled = true ∧
    (initStorage "t0" envCexC6).isOffline = false := by
  exact ⟨rfl, rfl⟩

/-- C6 witness input: both identifier sources empty, create throws. -/
def envWitC6 : InitEnv :=
  { urlSyncId := none, localId := none, fetchRes := FetchRes.netError
    createRes := CreateRes.netError }

/-- C6 witness: a network failure on create leaves the app ready, seeded
with defaults, offline, with all sync actions disabled. -/
theorem c6_offline_degradation_witness :
    (initStorage "t0" envWitC6).isInitializing = false ∧
    (initStorage "t0" envWitC6).projects = INITIAL_PROJECTS "t0" ∧
    (initStorage "t0" envWitC6).isOffline = true ∧
    (initStorage "t0" envWitC6).syncId = none ∧
    pushIsNoOp (initStorage "t0" envWitC6).isInitializing (initStorage "t0" envWitC6).syncId
      (initStorage "t0" envWitC6).isOffline = true ∧
    pollIsNoOp (initStorage "t0" envWitC6).isInitializing (initStorage "t0" envWitC6).syncId
      (initStorage "t0" envWitC6).isOffline = true ∧
    refreshIsNoOp (initStorage "t0" envWitC6).syncId (initStorage "t0" envWitC6).isOffline = true ∧
    refreshInformsUser (initStorage "t0" envWitC6).syncId
      (initStorage "t0" envWitC6).isOffline = true :=
  (c6_offline_degradation "t0" envWitC6 rfl).1 (Or.inl rfl)

/-- C7: initialization issues a create POST exactly when no identifier was
resolved from the query parameter or the local fallback, or the fetch of
the resolved identifier did not come back HTTP-OK with an array body. -/
theorem c7_create_iff_no_valid_fetch (now : String) (env : InitEnv) :
    (initStorage now env).createCalled = true ↔
      (resolveId env = none ∨ fetchFailed env.fetchRes = true) := by
  rcases hr : resolveId env with _ | s
  · simp [initStorage, fetchPhase, hr]
  · rcases hf : env.fetchRes with b | _ | _
    · cases b <;> simp [initStorage, fetchPhase, fetchFailed, hr, hf]
    · simp [initStorage, fetchPhase, fetchFailed, hr, hf]
    · simp [initStorage, fetchPhase, fetchFailed, hr, hf]

/-- Folding the save effect over a chain of mutations that each arrive
inside the previous debounce window fires nothing and leaves only the last
mutation's timer pending. -/
lemma debounce_foldl_aux (evs : List (ℚ × List Project)) (e : ℚ × List Project)
    (hchain : List.Chain' Adjacent (e :: evs))
    (fired : List (ℚ × List Project)) (pending : Option (ℚ × List Project))
    (hp : ∀ q, pending = some q → ¬ q.1 ≤ e.1) :
    (e :: evs).foldl (debounceStep true) (fired, pending) =
      (fired, some ((evs.getLastD e).1 + 1, (evs.getLastD e).2)) := by
  induction evs generalizing e fired pending with
  | nil =>
    cases pending with
    | none => rfl
    | some q => simp [debounceStep, hp q rfl]
  | cons e2 rest ih =>
    have hstep : debounceStep true (fired, pending) e = (fired, some (e.1 + 1, e.2)) := by
      cases pending with
      | none => rfl
      | some q => simp [debounceStep, hp q rfl]
    have hpair := List.chain'_cons.mp hchain
    have hp2 : ∀ q, (some (e.1 + 1, e.2) : Option (ℚ × List Project)) = some q →
        ¬ q.1 ≤ e2.1 := by
      rintro q hq
      cases hq
      exact not_le.mpr hpair.1.2
    calc (e :: e2 :: rest).foldl (debounceStep true) (fired, pending) =
        (e2 :: rest).foldl (debounceStep true) (fired, some (e.1 + 1, e.2)) := by
          rw [List.foldl_cons, hstep]
      _ = (fired, some ((rest.getLastD e2).1 + 1, (rest.getLastD e2).2)) :=
          ih e2 hpair.2 fired (some (e.1 + 1, e.2)) hp2
      _ = (fired, some (((e2 :: rest).getLastD e).1 + 1, ((e2 :: rest).getLastD e).2)) := by
          rw [List.getLastD_cons]

/-- C8: while ready and online, a nonempty chain of mutations each inside
the previous 1-second debounce window produces exactly one push, firing
one second after the last mutation and carrying the document state after
that last mutation. -/
theorem c8_debounce_coalesces (e : ℚ × List Project) (evs : List (ℚ × List Project))
    (hchain : List.Chain' Adjacent (e :: evs)) :
    debounceRun true (e :: evs) = [((evs.getLastD e).1 + 1, (evs.getLastD e).2)] := by
  unfold debounceRun
  rw [debounce_foldl_aux evs e hchain [] none (fun q hq => by simp at hq)]
  rfl

/-- First witness mutation event. -/
def evA : ℚ × List Project := (0, [])

/-- Second witness mutation event, half a second later. -/
def evB : ℚ × List Project := (1/2, [projLiveA])

/-- Third witness mutation event, at the edge of the second window. -/
def evC : ℚ × List Project := (1, [projLiveA, projTrashB])

/-- C8 witness: the concrete three-mutation burst yields exactly one push,
at time 2, carrying the third state. -/
theorem c8_debounce_coalesces_witness :
    debounceRun true [evA, evB, evC] = [(2, [projLiveA, projTrashB])] := by
  have h := c8_debounce_coalesces evA [evB, evC]
    (by norm_num [List.chain'_cons, Adjacent, evA, evB, evC])
  norm_num [evA, evB, evC, List.getLastD_cons] at h
  exact h

end Seupachiba
